import Mathlib

/-!
# ClaimFlow claim-processing core — shallow embedding and verification

This file embeds the rule-based claim-processing core of the ClaimFlow
agent (src/agent/tools.py, src/agent/tools_agent.py, src/agent/workflow.py,
src/agent/workflow_agent.py, src/agent/state.py) into Lean and proves
properties of it.

Modelling conventions:
* Python floats are modelled as `ℚ` (the arithmetic in the source is plain
  +, -, *, /, max, so rationals represent it exactly).
* Python dicts with optional keys are modelled as structures whose optional
  fields are `Option` values; `d.get(k, default)` becomes `field.getD default`.
* Python string operations (`in`, `startswith`, `lower`) are re-implemented
  over `List Char` so that concrete instances reduce in the kernel.
* The two copies of each tool (src/agent/tools.py for the fixed pipeline and
  src/agent/tools_agent.py for the agentic pipeline) are embedded separately
  where they differ, and shared where the bodies are identical.
-/

namespace ClaimFlow

/-! ## String helpers (Python `in`, `startswith`, `lower`) -/

/-- Python `pat in s` for a `List Char` haystack. -/
def listIsInfixOf (pat : List Char) : List Char → Bool
  | [] => pat.isEmpty
  | c :: rest => pat.isPrefixOf (c :: rest) || listIsInfixOf pat rest

/-- Python `pat in s` (substring containment). -/
def strContains (s pat : String) : Bool := listIsInfixOf pat.data s.data

/-- Python `s.startswith(pat)`. -/
def strStartsWith (s pat : String) : Bool := pat.data.isPrefixOf s.data

/-- Python `s.lower()`. -/
def strLower (s : String) : String := String.mk (s.data.map Char.toLower)

/-! ## Data model

Structures mirroring the dict shapes that flow between the tools.
-/

/-- Raw claim data collected during the conversation phase (the dict passed
to `extract_claim_data_from_conversation` / `extract_claim_data`).  Every
field is optional, matching `claim_data.get(...)` reads in the source. -/
structure RawClaim where
  claim_type : Option String := none
  incident_date : Option String := none
  customer_id : Option String := none
  location : Option String := none
  submitted_documents : List String := []
  damage_description : Option String := none
  vehicle_registration : Option String := none
  property_id : Option String := none
  repair_estimate : Option ℚ := none
  treatment_type : Option String := none
  hospital_name : Option String := none
  hospitalization_date : Option String := none
  treatment_cost : Option ℚ := none
  medical_bills : Option String := none
  deriving Repr, DecidableEq

/-- Structured claim record produced by the extraction tool
(src/agent/tools.py lines 99-134).  An `Option` field that is `none` models
a key that is absent from the returned dict: the motor/home branches attach
`repair_estimate` but never `treatment_cost`, and the health branch attaches
`treatment_cost` but never `repair_estimate`. -/
structure StructuredClaim where
  claim_type : String
  incident_date : String := ""
  customer_id : String := ""
  location : String := ""
  submitted_documents : List String := []
  damage_description : Option String := none
  vehicle_registration : Option String := none
  property_id : Option String := none
  repair_estimate : Option ℚ := none
  treatment_type : Option String := none
  hospital_name : Option String := none
  hospitalization_date : Option String := none
  treatment_cost : Option ℚ := none
  medical_bills : Option String := none
  deriving Repr, DecidableEq

/-- Policy record (the dict produced by `retrieve_policy`), restricted to the
fields read by the downstream tools.  `Option` fields model possibly-absent
dict keys; `zero_depreciation` models `policy_data.get("zero_depreciation",
False)` directly as a `Bool`. -/
structure PolicyData where
  policy_number : Option String := none
  coverage_type : Option String := none
  sum_insured : Option ℚ := none
  idv : Option ℚ := none
  deductible : Option ℚ := none
  zero_depreciation : Bool := false
  ncb_percentage : Option ℚ := none
  copay_percentage : Option ℚ := none
  room_rent_limit : Option ℚ := none
  status : Option String := none
  deriving Repr, DecidableEq

/-- Result of the coverage check.  `coverage_limit` lives in `WithTop ℚ`
because the third-party branch of the fallback rules can return
`float('inf')` (modelled as `⊤`).  The source dict key `section` is a Lean
keyword, hence the field name `sectionLabel`. -/
structure CoverageResult where
  covered : Bool
  sectionLabel : String
  coverage_limit : WithTop ℚ
  applicable : Bool
  deriving Repr, DecidableEq

/-- One entry of the exclusion catalogue (`check_exclusions` output). -/
structure ExclusionEntry where
  exclusion : String
  applies : Bool
  reason : String
  deriving Repr, DecidableEq

/-- Payout calculation result.  The health branch populates the co-pay
fields and the motor/home branch populates the depreciation fields; a `none`
models the key being absent from the returned dict. -/
structure PayoutResult where
  claimed_amount : ℚ
  deductible : ℚ
  copay_amount : Option ℚ := none
  copay_percentage : Option ℚ := none
  room_rent_limit : Option ℚ := none
  depreciation : Option ℚ := none
  depreciation_rate : Option ℚ := none
  zero_depreciation_applied : Option Bool := none
  payable_amount : ℚ
  calculation_type : String
  deriving Repr, DecidableEq

/-- Document verification result (`verify_documents` output). -/
structure DocumentStatus where
  required : List String := []
  submitted : List String := []
  missing : List String := []
  complete : Bool
  deriving Repr, DecidableEq

/-- Claim history result (`check_claim_history` output), restricted to the
fields read by `make_decision` and the report generator. -/
structure ClaimHistory where
  customer_found : Bool := false
  customer_name : String := ""
  total_claims : ℕ := 0
  claim_free_years : ℚ := 0
  ncb_percentage : ℚ := 0
  fraud_flags : List String := []
  risk_level : String := "unknown"
  source : String := ""
  deriving Repr, DecidableEq

/-! ## Tool 1: claim normalizer
(src/agent/tools.py lines 53-96; src/agent/tools_agent.py lines 110-151 —
the two bodies are identical, so one embedding serves both.) -/

/-- Keyword classification of the free-text claim type into one of the 13
canonical claim types (or the lower-cased input unchanged for an
unrecognized domain). -/
def normalizeClaimType (raw_type : String) : String :=
  let claim_type := strLower raw_type
  let has := fun pat => strContains claim_type pat
  if has "motor" || has "vehicle" || has "car" || has "bike" then
    if has "accident" || has "collision" then "motor_accident"
    else if has "theft" || has "stolen" then "motor_theft"
    else if has "fire" then "motor_fire"
    else if has "vandalism" || has "vandal" then "motor_vandalism"
    else "motor_accident"
  else if has "home" || has "house" || has "property" then
    if has "fire" || has "burn" then "home_fire"
    else if has "theft" || has "burglary" || has "stolen" then "home_theft"
    else if has "flood" || has "water" then "home_flood"
    else if has "earthquake" || has "quake" then "home_earthquake"
    else if has "storm" || has "cyclone" || has "wind" then "home_storm"
    else "home_fire"
  else if has "health" || has "medical" || has "hospital" then
    if has "accident" || has "injury" || has "broke" || has "fracture" then "health_accident"
    else if has "surgery" || has "operation" then "health_surgery"
    else if has "critical" || has "heart" || has "cancer" || has "stroke" then "health_critical_illness"
    else "health_hospitalization"
  else claim_type

/-- Python `float(d.get(k, 0)) if d.get(k) else 0`: a missing key or a
falsy value (0) yields 0, otherwise the numeric value itself. -/
def truthyAmount (v : Option ℚ) : ℚ := v.getD 0

/-- Embedding of `extract_claim_data_from_conversation` (src/agent/tools.py lines 41-134)
= `extract_claim_data` (src/agent/tools_agent.py lines 89-196): normalizes
the claim type and builds the structured record, attaching the
domain-specific fields of exactly one domain. -/
def extract_claim_data_from_conversation (claim_data : RawClaim) : StructuredClaim :=
  let normalized_type := normalizeClaimType (claim_data.claim_type.getD "unknown")
  let base : StructuredClaim :=
    { claim_type := normalized_type
      incident_date := claim_data.incident_date.getD ""
      customer_id := claim_data.customer_id.getD ""
      location := claim_data.location.getD ""
      submitted_documents := claim_data.submitted_documents }
  if strStartsWith normalized_type "motor" then
    { base with
        damage_description := some (claim_data.damage_description.getD "")
        vehicle_registration := some (claim_data.vehicle_registration.getD "")
        repair_estimate := some (truthyAmount claim_data.repair_estimate) }
  else if strStartsWith normalized_type "home" then
    { base with
        damage_description := some (claim_data.damage_description.getD "")
        property_id := some (claim_data.property_id.getD "")
        repair_estimate := some (truthyAmount claim_data.repair_estimate) }
  else if strStartsWith normalized_type "health" then
    { base with
        treatment_type := some (claim_data.treatment_type.getD "")
        hospital_name := some (claim_data.hospital_name.getD "")
        hospitalization_date := some (claim_data.hospitalization_date.getD "")
        treatment_cost := some (truthyAmount claim_data.treatment_cost)
        medical_bills := some (claim_data.medical_bills.getD "") }
  else base

/-! ## Tool 2: policy resolver fallback
(src/agent/tools.py lines 232-246; src/agent/tools_agent.py lines 300-316.)

When the database lookup misses or fails, `retrieve_policy` returns a
hard-coded mock policy dict.  We record both the exact key lists of those
dict literals (to reason about which fields the fallback carries) and the
values as a `PolicyData`. -/

/-- The keys of the mock policy dict returned by the fallback branch of
`retrieve_policy` in src/agent/tools.py (lines 234-246), in source order. -/
def fallbackPolicyKeys : List String :=
  ["policy_number", "identifier", "vehicle", "idv", "coverage_type",
   "deductible", "zero_depreciation", "ncb_percentage", "policy_start",
   "policy_end", "status"]

/-- The keys of the mock policy dict returned by the fallback branch of
`retrieve_policy` in src/agent/tools_agent.py (lines 302-316), in source
order. -/
def fallbackPolicyKeysAgent : List String :=
  ["policy_number", "identifier", "vehicle", "idv", "sum_insured",
   "coverage_type", "deductible", "zero_depreciation", "ncb_percentage",
   "copay_percentage", "policy_start", "policy_end", "status"]

/-- The fallback mock policy of src/agent/tools_agent.py as a `PolicyData`
(the fields the downstream tools read). -/
def fallbackPolicyAgent : PolicyData :=
  { policy_number := some "MI-2024-3456"
    coverage_type := some "comprehensive"
    sum_insured := some 1550000
    idv := some 1550000
    deductible := some 2000
    zero_depreciation := true
    ncb_percentage := some 20
    copay_percentage := some 10
    status := some "active" }

/-! ## Tool 3: coverage check (embedded fallback rules)

The primary path calls a remote RAG service; when that call fails the tools
fall back to rule-based logic.  The two copies differ for motor claims with
an unknown `coverage_type`:
* src/agent/tools.py lines 294-307: unknown coverage type → not covered,
  section "Unknown Coverage", limit 0;
* src/agent/tools_agent.py lines 376-388: unknown coverage type → covered
  ("Assume comprehensive"), section "Section 2.1: Own Damage",
  limit sum_insured (default 0);
and in the comprehensive branch (idv default 0 vs idv default sum_insured).
-/

/-- Rule-based fallback of `check_coverage` in src/agent/tools.py
(lines 279-335), as a pure function of the claim type and policy. -/
def check_coverage_fallback (claim_type : String) (policy_data : PolicyData) :
    CoverageResult :=
  let coverage_type := policy_data.coverage_type.getD ""
  if strStartsWith claim_type "health_" then
    let sectionLabel :=
      if strContains claim_type "accident" then "Section 2: Accidental Injury Cover"
      else if strContains claim_type "surgery" then "Section 3: Surgical Procedures"
      else if strContains claim_type "critical" then "Section 4: Critical Illness Cover"
      else "Section 1: Hospitalization Cover"
    { covered := true, sectionLabel := sectionLabel
      coverage_limit := (policy_data.sum_insured.getD 500000 : ℚ)
      applicable := true }
  else if strStartsWith claim_type "motor_" then
    if coverage_type = "comprehensive" then
      { covered := true, sectionLabel := "Section 2.1: Own Damage"
        coverage_limit := (policy_data.idv.getD 0 : ℚ), applicable := true }
    else if coverage_type = "third_party" then
      let covered := strContains (strLower claim_type) "third_party"
      { covered := covered
        sectionLabel := if covered then "Section 1: Third Party Liability" else "Not Covered"
        coverage_limit := if covered then (⊤ : WithTop ℚ) else (0 : ℚ)
        applicable := covered }
    else
      { covered := false, sectionLabel := "Unknown Coverage"
        coverage_limit := (0 : ℚ), applicable := false }
  else if strStartsWith claim_type "home_" then
    let sectionLabel :=
      if strContains claim_type "fire" then "Section 1: Fire and Allied Perils"
      else if strContains claim_type "theft" then "Section 2: Burglary and Theft"
      else if strContains claim_type "flood" then "Section 3: Natural Calamities - Flood"
      else if strContains claim_type "earthquake" then "Section 3: Natural Calamities - Earthquake"
      else if strContains claim_type "storm" then "Section 3: Natural Calamities - Storm"
      else "Section 1: General Property Damage"
    { covered := true, sectionLabel := sectionLabel
      coverage_limit := (policy_data.sum_insured.getD 1000000 : ℚ)
      applicable := true }
  else
    { covered := false, sectionLabel := "Unknown Coverage"
      coverage_limit := (0 : ℚ), applicable := false }

/-- Rule-based fallback of `check_coverage` in src/agent/tools_agent.py
(lines 358-417). -/
def check_coverage_fallback_agent (claim_type : String) (policy_data : PolicyData) :
    CoverageResult :=
  let coverage_type := policy_data.coverage_type.getD ""
  if strStartsWith claim_type "health_" then
    let sectionLabel :=
      if strContains claim_type "accident" then "Section 2: Accidental Injury Cover"
      else if strContains claim_type "surgery" then "Section 3: Surgical Procedures"
      else if strContains claim_type "critical" then "Section 4: Critical Illness Cover"
      else "Section 1: Hospitalization Cover"
    { covered := true, sectionLabel := sectionLabel
      coverage_limit := (policy_data.sum_insured.getD 500000 : ℚ)
      applicable := true }
  else if strStartsWith claim_type "motor_" then
    if coverage_type = "comprehensive" then
      { covered := true, sectionLabel := "Section 2.1: Own Damage"
        coverage_limit := (policy_data.idv.getD (policy_data.sum_insured.getD 0) : ℚ)
        applicable := true }
    else if coverage_type = "third_party" then
      let covered := strContains (strLower claim_type) "third_party"
      { covered := covered
        sectionLabel := if covered then "Section 1: Third Party Liability" else "Not Covered"
        coverage_limit := if covered then (⊤ : WithTop ℚ) else (0 : ℚ)
        applicable := covered }
    else
      { covered := true, sectionLabel := "Section 2.1: Own Damage"
        coverage_limit := (policy_data.sum_insured.getD 0 : ℚ), applicable := true }
  else if strStartsWith claim_type "home_" then
    let sectionLabel :=
      if strContains claim_type "fire" then "Section 1: Fire and Allied Perils"
      else if strContains claim_type "theft" then "Section 2: Burglary and Theft"
      else if strContains claim_type "flood" then "Section 3: Natural Calamities - Flood"
      else if strContains claim_type "earthquake" then "Section 3: Natural Calamities - Earthquake"
      else if strContains claim_type "storm" then "Section 3: Natural Calamities - Storm"
      else "Section 1: General Property Damage"
    { covered := true, sectionLabel := sectionLabel
      coverage_limit := (policy_data.sum_insured.getD 1000000 : ℚ)
      applicable := true }
  else
    { covered := false, sectionLabel := "Unknown Coverage"
      coverage_limit := (0 : ℚ), applicable := false }

/-! ## Tool 4: exclusion screener
(src/agent/tools.py lines 348-392 = src/agent/tools_agent.py lines 433-486;
the bodies are identical.) -/

/-- The fixed exclusion catalogue, in source order. -/
def common_exclusions : List String :=
  ["DUI (Driving Under Influence)",
   "Invalid or Expired License",
   "Commercial Use without Commercial Policy",
   "War or Nuclear Risk",
   "Consequential Losses",
   "Wear and Tear",
   "Mechanical/Electrical Breakdown"]

/-- Embedding of `check_exclusions`: builds one not-applicable entry per catalogue item;
the claim and policy arguments are never consulted. -/
def check_exclusions (_claim_data : StructuredClaim) (_policy_data : PolicyData) :
    List ExclusionEntry :=
  common_exclusions.map fun exclusion =>
    { exclusion := exclusion
      applies := false
      reason := "No indication of this exclusion in claim details" }

/-! ## Tool 5: payout calculator
(src/agent/tools.py lines 397-490 = src/agent/tools_agent.py lines 492-600;
the bodies are identical up to argument order.) -/

/-- The motor depreciation-rate bands loaded from `repair_costs.json`
(`depreciation_rates.motor`); a `none` field models an absent table entry,
resolved by the `.get(..., default)` defaults in the source. -/
structure MotorDepRates where
  r0_6_months : Option ℚ := none
  r6_12_months : Option ℚ := none
  r1_2_years : Option ℚ := none
  r2_3_years : Option ℚ := none
  r3_4_years : Option ℚ := none
  r4_5_years : Option ℚ := none
  r5_plus_years : Option ℚ := none
  deriving Repr, DecidableEq

/-- The depreciation-rate tables of `repair_costs.json`. -/
structure DepTable where
  motor : MotorDepRates := {}
  home_general : Option ℚ := none
  deriving Repr, DecidableEq

/-- The age-banded motor rate ladder of `calculate_payout`
(src/agent/tools.py lines 446-461), with the documented defaults. -/
def motorDepRate (dep_rates : MotorDepRates) (vehicle_age_years : ℚ) : ℚ :=
  if vehicle_age_years ≤ 1/2 then dep_rates.r0_6_months.getD 0
  else if vehicle_age_years ≤ 1 then dep_rates.r6_12_months.getD 5
  else if vehicle_age_years ≤ 2 then dep_rates.r1_2_years.getD 10
  else if vehicle_age_years ≤ 3 then dep_rates.r2_3_years.getD 15
  else if vehicle_age_years ≤ 4 then dep_rates.r3_4_years.getD 25
  else if vehicle_age_years ≤ 5 then dep_rates.r4_5_years.getD 35
  else dep_rates.r5_plus_years.getD 50

/-- The depreciation rate chosen by the non-zero-dep branch of
`calculate_payout` (src/agent/tools.py lines 443-467): motor uses the age
ladder, home a flat rate (default 10), anything else 0. -/
def depreciationRateFor (repair_costs : DepTable) (claim_type : String)
    (vehicle_age_years : ℚ) : ℚ :=
  if strStartsWith claim_type "motor_" then motorDepRate repair_costs.motor vehicle_age_years
  else if strStartsWith claim_type "home_" then repair_costs.home_general.getD 10
  else 0

/-- Embedding of `calculate_payout` (src/agent/tools.py lines 397-490).  `repair_costs`
is the depreciation table read from `config.REPAIR_COSTS_PATH`. -/
def calculate_payout (claim_amount : ℚ) (policy_data : PolicyData)
    (repair_costs : DepTable) (vehicle_age_years : ℚ) (claim_type : String) :
    PayoutResult :=
  let deductible := policy_data.deductible.getD 2000
  if strStartsWith claim_type "health_" then
    let copay_percentage := policy_data.copay_percentage.getD 10
    let room_rent_limit := policy_data.room_rent_limit.getD 5000
    let copay_amount := claim_amount * (copay_percentage / 100)
    let payable_amount := max 0 (claim_amount - copay_amount - deductible)
    { claimed_amount := claim_amount
      deductible := deductible
      copay_amount := some copay_amount
      copay_percentage := some copay_percentage
      room_rent_limit := some room_rent_limit
      payable_amount := payable_amount
      calculation_type := "health_copay" }
  else
    let zero_dep := policy_data.zero_depreciation
    let depreciation_rate :=
      if zero_dep then 0
      else depreciationRateFor repair_costs claim_type vehicle_age_years
    let depreciation :=
      if zero_dep then 0 else claim_amount * (depreciation_rate / 100)
    let amount_after_depreciation := claim_amount - depreciation
    let payable_amount := max 0 (amount_after_depreciation - deductible)
    { claimed_amount := claim_amount
      deductible := deductible
      depreciation := some depreciation
      depreciation_rate := some (if zero_dep then 0 else depreciation_rate)
      payable_amount := payable_amount
      zero_depreciation_applied := some zero_dep
      calculation_type :=
        if strStartsWith claim_type "motor_" then "motor_depreciation"
        else "home_depreciation" }

/-! ## Number formatting helpers

Python f-strings render amounts as `{:,.0f}` (round to integer, half to
even, with thousands separators) inside the decision-reasoning strings and
the report.  We embed that formatting so the rendered strings are concrete.
-/

/-- Round half to even, as Python's `format` does for `.0f`. -/
def roundHalfEven (q : ℚ) : ℤ :=
  let f := ⌊q⌋
  let r := q - f
  if r < 1/2 then f
  else if r > 1/2 then f + 1
  else if f % 2 = 0 then f else f + 1

/-- Insert `,` thousands separators into a digit string (given reversed),
three digits at a time from the right. -/
def groupDigitsAux : List Char → List Char
  | a :: b :: c :: d :: rest => a :: b :: c :: ',' :: groupDigitsAux (d :: rest)
  | l => l

/-- Python `"{:,}".format(n)` for a natural number. -/
def groupDigits (n : ℕ) : String :=
  String.mk (groupDigitsAux (toString n).data.reverse).reverse

/-- Python `"{:,.0f}".format(q)`. -/
def fmtAmount (q : ℚ) : String :=
  let n := roundHalfEven q
  (if n < 0 then "-" else "") ++ groupDigits n.natAbs

/-- The helper `fmt_curr` of `generate_report`: a zero amount is falsy and
short-circuits to "₹0"; otherwise the amount is formatted as currency. -/
def fmt_curr (amount : ℚ) : String :=
  if amount = 0 then "₹0" else "₹" ++ fmtAmount amount

/-- Two-decimal formatting (Python `{:.2f}`), used for the processing time
in the report. -/
def fmt2 (q : ℚ) : String :=
  let n := roundHalfEven (q * 100)
  let a := n.natAbs
  (if n < 0 then "-" else "") ++ toString (a / 100) ++ "." ++
    (if a % 100 < 10 then "0" else "") ++ toString (a % 100)

/-! ## Tool 8: decision engine
(src/agent/tools.py lines 682-751 and src/agent/tools_agent.py lines
805-910: the rule cascade and the produced strings are identical; only the
return packaging differs — a tuple vs a dict.) -/

/-- Which rule of the decision cascade fired, together with the data it
interpolates into its reasoning string (see `reasonText` for the exact
rendering). -/
inductive Reason where
  | notCovered
  | exclusionsApply (applicable : List String)
  | fraudDetected (flags : List String)
  | autoApproved (max_auto_approve : ℚ)
  | exceedsLimit (max_auto_approve : ℚ)
  | pendingDocuments (missing_count : ℕ)
  | multiplePastClaims
  | allChecksPassed
  deriving Repr, DecidableEq

/-- The reasoning string produced by each branch of `make_decision`. -/
def reasonText : Reason → String
  | .notCovered => "Claim type not covered under policy"
  | .exclusionsApply applicable =>
      "Policy exclusions apply: " ++ String.intercalate ", " applicable
  | .fraudDetected flags =>
      "Fraud indicators detected: " ++ String.intercalate ", " flags
  | .autoApproved m =>
      "Auto-approved: Amount within limit (₹" ++ fmtAmount m ++ "), all criteria met"
  | .exceedsLimit m =>
      "Manual review required: Amount exceeds auto-approval limit (₹" ++ fmtAmount m ++ ")"
  | .pendingDocuments n =>
      "Conditionally approved pending " ++ toString n ++ " document(s)"
  | .multiplePastClaims => "Manual review required: Multiple past claims"
  | .allChecksPassed => "All checks passed, claim approved"

/-- Embedding of `make_decision`: the ordered rule cascade.  `max_auto_approve` is the
configured auto-approval limit (`business_rules.auto_approval.conditions
.max_amount`, default 50000).  `payout_calculation` is accepted but never
consulted, exactly as in the source.  Returns the decision string together
with the `Reason` of the branch that fired. -/
def make_decision (coverage_check : CoverageResult)
    (exclusions : List ExclusionEntry)
    (_payout_calculation : Option PayoutResult)
    (document_status : DocumentStatus) (claim_history : ClaimHistory)
    (claim_amount : ℚ) (max_auto_approve : ℚ := 50000) : String × Reason :=
  if coverage_check.covered = false then
    ("DENIED", .notCovered)
  else if exclusions.any (·.applies) then
    ("DENIED", .exclusionsApply ((exclusions.filter (·.applies)).map (·.exclusion)))
  else if claim_history.fraud_flags ≠ [] then
    ("DENIED", .fraudDetected claim_history.fraud_flags)
  else if claim_amount ≤ max_auto_approve ∧ document_status.complete = true ∧
      claim_history.fraud_flags = [] ∧ 1 ≤ claim_history.claim_free_years then
    ("APPROVED", .autoApproved max_auto_approve)
  else if max_auto_approve < claim_amount then
    ("REVIEW", .exceedsLimit max_auto_approve)
  else if document_status.complete = false then
    ("APPROVED", .pendingDocuments document_status.missing.length)
  else if 3 < claim_history.total_claims then
    ("REVIEW", .multiplePastClaims)
  else
    ("APPROVED", .allChecksPassed)

/-! ## Fixed deterministic pipeline wiring
(src/agent/workflow.py.)  `step_5_calculate_payout` (lines 314-337) selects
`treatment_cost` for health claims and `repair_estimate` otherwise, while
`step_8_make_decision` (lines 372-389) always passes
`extracted_data.get("repair_estimate", 0)` as the claim amount. -/

/-- The claim amount `step_5_calculate_payout` feeds into the payout
calculator. -/
def step5_claim_amount (extracted : StructuredClaim) : ℚ :=
  if strStartsWith extracted.claim_type "health_" then
    extracted.treatment_cost.getD 0
  else
    extracted.repair_estimate.getD 0

/-- The claim amount `step_8_make_decision` feeds into the decision engine:
`state.get("extracted_data", {}).get("repair_estimate", 0)`. -/
def step8_claim_amount (extracted : StructuredClaim) : ℚ :=
  extracted.repair_estimate.getD 0

/-! ## Tool 9: report generator
(src/agent/tools_agent.py lines 916-1082 — the copy the agentic
orchestrator invokes; src/agent/tools.py differs only by one absent
footer line.)

The report reads its `claim_data` argument through `.get(...)`, and the
finalize node may pass either the structured record or the raw conversation
dict, so we give the report a dict view with every field optional. -/

/-- Dict view of the claim data consumed by `generate_report`. -/
structure ClaimDataView where
  claim_type : Option String := none
  incident_date : Option String := none
  hospital_name : Option String := none
  treatment_type : Option String := none
  hospitalization_date : Option String := none
  vehicle_registration : Option String := none
  damage_description : Option String := none
  property_id : Option String := none
  deriving Repr, DecidableEq

/-- View of a structured claim record as report input. -/
def structuredView (e : StructuredClaim) : ClaimDataView :=
  { claim_type := some e.claim_type
    incident_date := some e.incident_date
    hospital_name := e.hospital_name
    treatment_type := e.treatment_type
    hospitalization_date := e.hospitalization_date
    vehicle_registration := e.vehicle_registration
    damage_description := e.damage_description
    property_id := e.property_id }

/-- View of the raw conversation dict as report input (used by the finalize
node when extraction never ran). -/
def rawView (r : RawClaim) : ClaimDataView :=
  { claim_type := r.claim_type
    incident_date := r.incident_date
    hospital_name := r.hospital_name
    treatment_type := r.treatment_type
    hospitalization_date := r.hospitalization_date
    vehicle_registration := r.vehicle_registration
    damage_description := r.damage_description
    property_id := r.property_id }

/-- Rendering of a number the way a Python f-string interpolates it without
a format spec.  Python would print a float as e.g. `10.0`; we print integral
values without the trailing `.0` — a cosmetic divergence that no theorem in
this file depends on. -/
def pyNum (q : ℚ) : String :=
  if q.den = 1 then toString q.num else toString q.num ++ "/" ++ toString q.den

/-- The helper `fmt_curr` applied to a coverage limit, which may be `float('inf')`
(rendered `₹inf` by Python). -/
def fmt_curr_limit : WithTop ℚ → String
  | ⊤ => "₹inf"
  | (q : ℚ) => fmt_curr q

/-- Embedding of `generate_report` (src/agent/tools_agent.py lines 916-1082):
pure formatting of all accumulated results.  `processing_date` stands for
the `datetime.now()` timestamp rendered into the header. -/
def generate_report (claim_id : String) (claim_data : ClaimDataView)
    (coverage_check : Option CoverageResult) (exclusions : List ExclusionEntry)
    (payout_calculation : Option PayoutResult)
    (document_status : Option DocumentStatus)
    (claim_history : Option ClaimHistory)
    (decision : String) (decision_reasoning : String)
    (processing_time : ℚ) (processing_date : String) : String :=
  let claim_type := claim_data.claim_type.getD "N/A"
  let is_health := strStartsWith claim_type "health_"
  let is_motor := strStartsWith claim_type "motor_"
  let is_home := strStartsWith claim_type "home_"
  let pgetQ := fun (f : PayoutResult → ℚ) =>
    (payout_calculation.map f).getD 0
  let pgetOpt := fun (f : PayoutResult → Option ℚ) =>
    (payout_calculation.bind f).getD 0
  let header :=
    "\n===== CLAIM PROCESSING REPORT =====\nClaim ID: " ++ claim_id ++
    "\nProcessing Date: " ++ processing_date ++
    "\nStatus: " ++ decision ++
    "\n\n━━━━━━━━━━━━━━━━━━━━━━━━━━━━━━━━━━\n\nCLAIM DETAILS:\n• Type: " ++
    claim_type ++ "\n• Incident Date: " ++ claim_data.incident_date.getD "N/A" ++ "\n"
  let details :=
    if is_health then
      "• Hospital: " ++ claim_data.hospital_name.getD "N/A" ++ "\n" ++
      "• Treatment: " ++ claim_data.treatment_type.getD "N/A" ++ "\n" ++
      (if (claim_data.hospitalization_date.getD "") ≠ "" then
        "• Admission Date: " ++ claim_data.hospitalization_date.getD "N/A" ++ "\n"
      else "")
    else if is_motor then
      "• Vehicle: " ++ claim_data.vehicle_registration.getD "N/A" ++ "\n" ++
      "• Damage: " ++ claim_data.damage_description.getD "N/A" ++ "\n"
    else if is_home then
      "• Property: " ++ claim_data.property_id.getD "N/A" ++ "\n" ++
      "• Damage: " ++ claim_data.damage_description.getD "N/A" ++ "\n"
    else ""
  let coverage :=
    "\nCOVERAGE VERIFICATION:\n" ++
    (match coverage_check with
     | some cov =>
        if cov.covered then
          "✓ Covered under " ++ cov.sectionLabel ++ "\n" ++
          "✓ Coverage Limit: " ++ fmt_curr_limit cov.coverage_limit ++ "\n"
        else "✗ Not covered under policy\n"
     | none => "✗ Not covered under policy\n")
  let applicable_exclusions := exclusions.filter (·.applies)
  let exclusionLines :=
    if applicable_exclusions.isEmpty then "✓ No exclusions apply\n"
    else "✗ Exclusions apply:\n" ++
      String.join (applicable_exclusions.map fun e => "  - " ++ e.exclusion ++ "\n")
  let payoutLines :=
    "\nPAYOUT CALCULATION:\n" ++
    (if is_health then
      "• Treatment Cost: " ++ fmt_curr (pgetQ (·.claimed_amount)) ++ "\n" ++
      "• Deductible: " ++ fmt_curr (pgetQ (·.deductible)) ++ "\n" ++
      "• Co-pay: " ++ fmt_curr (pgetOpt (·.copay_amount)) ++ " (" ++
        pyNum (pgetOpt (·.copay_percentage)) ++ "% of claim amount)\n" ++
      "• PAYABLE AMOUNT: " ++ fmt_curr (pgetQ (·.payable_amount)) ++ "\n"
    else
      "• Claimed Amount: " ++ fmt_curr (pgetQ (·.claimed_amount)) ++ "\n" ++
      "• Deductible: " ++ fmt_curr (pgetQ (·.deductible)) ++ "\n" ++
      "• Depreciation: " ++ fmt_curr (pgetOpt (·.depreciation)) ++
      (if (payout_calculation.bind (·.zero_depreciation_applied)).getD false then
        " (Zero Depreciation Cover Active)\n"
      else
        " (" ++ pyNum (pgetOpt (·.depreciation_rate)) ++ "% applied)\n") ++
      "• PAYABLE AMOUNT: " ++ fmt_curr (pgetQ (·.payable_amount)) ++ "\n")
  let docsComplete := (document_status.map (·.complete)).getD false
  let missingDocs := (document_status.map (·.missing)).getD []
  let docLines :=
    "\nDOCUMENT VERIFICATION:\n" ++
    (if docsComplete then "✓ All required documents submitted\n"
     else
      "✗ Missing " ++ toString missingDocs.length ++ " document(s):\n" ++
      String.join ((missingDocs.take 5).map fun d => "  - " ++ d ++ "\n"))
  let historyLines :=
    "\nCLAIM HISTORY:\n" ++
    (match claim_history with
     | some h =>
        if h.customer_found then
          "• Customer: " ++ h.customer_name ++ "\n" ++
          "• Past Claims: " ++ toString h.total_claims ++ "\n" ++
          "• Claim-Free Years: " ++ pyNum h.claim_free_years ++ "\n" ++
          "• NCB: " ++ pyNum h.ncb_percentage ++ "%\n" ++
          (if h.fraud_flags ≠ [] then
            "• ⚠ Fraud Flags: " ++ String.intercalate ", " h.fraud_flags ++ "\n"
          else "")
        else "• New customer (no history found)\n"
     | none => "• New customer (no history found)\n")
  let decisionLines :=
    "\n━━━━━━━━━━━━━━━━━━━━━━━━━━━━━━━━━━\nDECISION: " ++ decision ++
    "\nReasoning: " ++ decision_reasoning ++ "\n"
  let nextActions :=
    if decision = "APPROVED" then
      if ¬ docsComplete then
        "\nNEXT ACTIONS:\n1. Customer to submit missing documents\n2. Schedule surveyor inspection (if required)\n3. Final approval after document verification\n"
      else
        "\nNEXT ACTIONS:\n1. Process payment\n2. Notify customer\n"
    else if decision = "DENIED" then
      "\nNEXT ACTIONS:\n1. Notify customer of denial\n2. Provide appeal process information\n"
    else
      "\nNEXT ACTIONS:\n1. Forward to claims adjuster for manual review\n2. May require additional investigation\n"
  let footer :=
    "\nProcessing Time: " ++ fmt2 processing_time ++ " seconds\n" ++
    "Processed by: ClaimFlow AI Agent\n" ++
    String.mk (List.replicate 40 '=') ++ "\n"
  header ++ details ++ coverage ++ exclusionLines ++ payoutLines ++ docLines ++
    historyLines ++ decisionLines ++ nextActions ++ footer

/-! ## Agentic orchestrator
(src/agent/workflow_agent.py, autonomous phase: `agent` ⇄ `tools` →
`finalize`, plus src/agent/state.py `create_initial_state` and
`transition_node` for the initial values.)

The LLM is modelled as an oracle: a stream of responses, one consumed per
`agent` turn.  A response either carries a list of tool calls or none (a
plain message, or an exception inside `agent_llm.invoke`, which the node
catches and turns into a plain message).  Tool arguments are chosen by the
LLM, so each call carries its own arguments; calls whose result depends on
an external collaborator (database, document rules, history repository)
carry that collaborator's answer as well.  Each call also carries a `fails`
flag modelling an exception during `tool_fn.invoke`, which the executor
catches: the result is not stored, but the call still counts. -/

/-- Arguments of a `generate_report` tool call, bundled. -/
structure ReportArgs where
  claim_id : String := ""
  claim_data : ClaimDataView := {}
  coverage_check : Option CoverageResult := none
  exclusions : List ExclusionEntry := []
  payout_calculation : Option PayoutResult := none
  document_status : Option DocumentStatus := none
  claim_history : Option ClaimHistory := none
  decision : String := ""
  decision_reasoning : String := ""
  processing_time : ℚ := 0
  deriving Repr, DecidableEq

/-- A single tool call requested by the agent LLM. -/
inductive ToolCall where
  | extractClaimData (claim_data : RawClaim) (fails : Bool)
  | retrievePolicy (identifier : String) (db_policy : Option PolicyData) (fails : Bool)
  | checkCoverage (claim_type : String) (policy_data : PolicyData)
      (remote : Option CoverageResult) (fails : Bool)
  | checkExclusions (claim_data : StructuredClaim) (policy_data : PolicyData) (fails : Bool)
  | calculatePayout (claim_amount : ℚ) (policy_data : PolicyData)
      (claim_type : String) (vehicle_age_years : ℚ) (fails : Bool)
  | verifyDocuments (result : DocumentStatus) (fails : Bool)
  | checkClaimHistory (result : ClaimHistory) (fails : Bool)
  | makeDecision (coverage_check : CoverageResult) (exclusions : List ExclusionEntry)
      (payout_calculation : Option PayoutResult) (document_status : DocumentStatus)
      (claim_history : ClaimHistory) (claim_amount : ℚ) (fails : Bool)
  | generateReport (args : ReportArgs) (fails : Bool)
  | unknownTool (name : String)
  deriving Repr, DecidableEq

/-- One response of the agent LLM. -/
inductive AgentResp where
  | llmError (msg : String)
  | message (tool_calls : List ToolCall)
  deriving Repr, DecidableEq

/-- Number of tool calls carried by a response. -/
def AgentResp.numCalls : AgentResp → ℕ
  | .llmError _ => 0
  | .message tool_calls => tool_calls.length

/-- Control position inside the autonomous phase of the graph. -/
inductive Phase where
  | agentTurn | toolsTurn | finalized
  deriving Repr, DecidableEq

/-- Ambient configuration: the static rate table, the configured
auto-approval limit and the rendered wall-clock date. -/
structure OrchConfig where
  repair_costs : DepTable := {}
  max_auto_approve : ℚ := 50000
  processing_date : String := ""
  deriving Repr

/-- The orchestrator state: the fields of `ClaimState`
(src/agent/state.py) that the autonomous phase reads or writes, plus the
control position and the tool calls of the last agent message
(`pending`). -/
structure OrchState where
  phase : Phase
  tool_call_count : ℕ
  max_tool_calls : ℕ
  pending : List ToolCall := []
  claim_id : String := ""
  claim_data : RawClaim := {}
  extracted_data : Option StructuredClaim := none
  policy_data : Option PolicyData := none
  coverage_check : Option CoverageResult := none
  exclusions : List ExclusionEntry := []
  payout_calculation : Option PayoutResult := none
  document_status : Option DocumentStatus := none
  claim_history : Option ClaimHistory := none
  decision : String := ""
  decision_reasoning : String := ""
  final_report : String := ""
  processing_time : ℚ := 0
  deriving Repr

/-- State right after `transition_node` (src/agent/workflow_agent.py lines
254-291): counters reset, `max_tool_calls := 20`, and the result fields at
their `create_initial_state` values (`decision = ""`, `final_report = ""`,
empty results). -/
def initialOrchState (claim_id : String) (claim_data : RawClaim) : OrchState :=
  { phase := .agentTurn
    tool_call_count := 0
    max_tool_calls := 20
    claim_id := claim_id
    claim_data := claim_data }

/-- Execution of one tool call by `tool_executor_node` (src/agent/
workflow_agent.py lines 403-497): on success the result is stored in the
state under the tool's slot; on failure (caught exception) nothing is
stored; either way `tool_call_count` is incremented — also for a tool name
missing from `TOOL_MAP`. -/
def execEffect (cfg : OrchConfig) (s : OrchState) (call : ToolCall) : OrchState :=
  match call with
    | .extractClaimData raw fails =>
        if fails then s
        else { s with extracted_data := some (extract_claim_data_from_conversation raw) }
    | .retrievePolicy _ db_policy fails =>
        if fails then s
        else { s with policy_data := some (db_policy.getD fallbackPolicyAgent) }
    | .checkCoverage claim_type policy_data remote fails =>
        if fails then s
        else { s with coverage_check := some (match remote with
                | some r => r
                | none => check_coverage_fallback_agent claim_type policy_data) }
    | .checkExclusions claim policy fails =>
        if fails then s
        else { s with exclusions := check_exclusions claim policy }
    | .calculatePayout amount policy claim_type age fails =>
        if fails then s
        else
          let p := calculate_payout amount policy cfg.repair_costs age claim_type
          { s with payout_calculation := some p }
    | .verifyDocuments result fails =>
        if fails then s else { s with document_status := some result }
    | .checkClaimHistory result fails =>
        if fails then s else { s with claim_history := some result }
    | .makeDecision cov excl payout docs hist amount fails =>
        if fails then s
        else
          let r := make_decision cov excl payout docs hist amount cfg.max_auto_approve
          { s with decision := r.1, decision_reasoning := reasonText r.2 }
    | .generateReport a fails =>
        if fails then s
        else
          let report :=
            generate_report a.claim_id a.claim_data a.coverage_check a.exclusions
              a.payout_calculation a.document_status a.claim_history a.decision
              a.decision_reasoning a.processing_time cfg.processing_date
          { s with final_report := report }
    | .unknownTool _ => s

/-- One loop iteration of the executor: apply the call's effect, then
increment the step counter (src/agent/workflow_agent.py line 497). -/
def execToolCall (cfg : OrchConfig) (s : OrchState) (call : ToolCall) : OrchState :=
  let s' := execEffect cfg s call
  { s' with tool_call_count := s'.tool_call_count + 1 }

/-- Embedding of `tool_executor_node` (src/agent/workflow_agent.py lines 384-502):
executes every tool call of the last agent message in order; with no tool
calls it returns the state unchanged. -/
def tool_executor_node (cfg : OrchConfig) (s : OrchState) : OrchState :=
  if s.pending.isEmpty then s
  else s.pending.foldl (execToolCall cfg) s

/-- Embedding of `agent_node` (src/agent/workflow_agent.py lines 298-346): when the
tool-call budget is exhausted it appends a plain message (no tool calls)
without invoking the LLM; otherwise it appends the LLM response; an LLM
exception is caught and becomes a plain message. -/
def agent_node (resp : AgentResp) (s : OrchState) : OrchState :=
  if s.max_tool_calls ≤ s.tool_call_count then { s with pending := [] }
  else
    match resp with
    | .llmError _ => { s with pending := [] }
    | .message tool_calls => { s with pending := tool_calls }

/-- Embedding of `should_continue` (src/agent/workflow_agent.py lines 349-381): routes
to the tool executor exactly when the last message carries tool calls;
every other branch (report present, decision present, limit reached,
default) routes to finalize. -/
def should_continue (s : OrchState) : Bool := !s.pending.isEmpty

/-- Embedding of `finalize_node` (src/agent/workflow_agent.py lines 505-582): when no
report exists it assembles one from whatever results are available, first
resolving an empty decision — REVIEW when a covered (or absent) coverage
result is at hand, DENIED with the coverage section as reasoning when a
not-covered coverage result is present. -/
def finalize_node (cfg : OrchConfig) (s : OrchState) : OrchState :=
  if s.final_report = "" then
    let claim_data_view :=
      match s.extracted_data with
      | some e => structuredView e
      | none => rawView s.claim_data
    let dr : String × String :=
      if s.decision = "" then
        match s.coverage_check with
        | some cov =>
            if cov.covered then
              ("REVIEW", "Claim requires manual review - automated processing incomplete")
            else
              ("DENIED", cov.sectionLabel)
        | none => ("REVIEW", "Coverage status unknown")
      else (s.decision, s.decision_reasoning)
    let report :=
      generate_report s.claim_id claim_data_view s.coverage_check s.exclusions
        s.payout_calculation s.document_status s.claim_history dr.1 dr.2
        s.processing_time cfg.processing_date
    { s with decision := dr.1, decision_reasoning := dr.2,
             final_report := report, phase := .finalized }
  else { s with phase := .finalized }

/-- One transition of the autonomous-phase graph: an `agent` turn followed
by the `should_continue` routing, a `tools` turn followed by the fixed edge
back to `agent`, or the terminal state. -/
def step (cfg : OrchConfig) (resp : AgentResp) (s : OrchState) : OrchState :=
  match s.phase with
  | .agentTurn =>
      let s' := agent_node resp s
      if should_continue s' then { s' with phase := .toolsTurn }
      else finalize_node cfg s'
  | .toolsTurn => { tool_executor_node cfg s with phase := .agentTurn }
  | .finalized => s

/-- Running `n` transitions driven by the oracle `o` (response `o k` is consumed at
transition `k`; only `agent` turns consult it). -/
def run (cfg : OrchConfig) (o : ℕ → AgentResp) (s : OrchState) : ℕ → OrchState
  | 0 => s
  | n + 1 => step cfg (o n) (run cfg o s n)

/-! ## Helper lemmas on string prefixes -/

/-- A true `strStartsWith` exposes the shape of the string's data. -/
theorem strStartsWith_shape {s p : String} (h : strStartsWith s p = true) :
    ∃ t, s.data = p.data ++ t := by
  unfold strStartsWith at h
  obtain ⟨t, ht⟩ := List.isPrefixOf_iff_prefix.mp h
  exact ⟨t, ht.symm⟩

/-- A string starting with `"motor_"` does not start with `"health_"`. -/
theorem motor_prefix_not_health {s : String} (h : strStartsWith s "motor_" = true) :
    strStartsWith s "health_" = false := by
  obtain ⟨t, ht⟩ := strStartsWith_shape h
  unfold strStartsWith
  rw [ht]
  rfl

/-- A string starting with `"health_"` does not start with `"motor"`. -/
theorem health_prefix_not_motor {s : String} (h : strStartsWith s "health_" = true) :
    strStartsWith s "motor" = false := by
  obtain ⟨t, ht⟩ := strStartsWith_shape h
  unfold strStartsWith
  rw [ht]
  rfl

/-- A string starting with `"health_"` does not start with `"home"`. -/
theorem health_prefix_not_home {s : String} (h : strStartsWith s "health_" = true) :
    strStartsWith s "home" = false := by
  obtain ⟨t, ht⟩ := strStartsWith_shape h
  unfold strStartsWith
  rw [ht]
  rfl

/-- A string starting with `"health_"` starts with `"health"`. -/
theorem health_prefix_is_health {s : String} (h : strStartsWith s "health_" = true) :
    strStartsWith s "health" = true := by
  obtain ⟨t, ht⟩ := strStartsWith_shape h
  unfold strStartsWith
  rw [ht]
  rfl

/-! ## C1 -/

/-- C1: for every input to `make_decision` whose coverage result has
`covered = false`, the decision is DENIED with the non-coverage reasoning
("Claim type not covered under policy"), regardless of the exclusions list,
payout, document status, history, claim amount and configured limit. -/
theorem make_decision_denied_when_not_covered (coverage_check : CoverageResult)
    (exclusions : List ExclusionEntry) (payout_calculation : Option PayoutResult)
    (document_status : DocumentStatus) (claim_history : ClaimHistory)
    (claim_amount max_auto_approve : ℚ)
    (h : coverage_check.covered = false) :
    make_decision coverage_check exclusions payout_calculation document_status
        claim_history claim_amount max_auto_approve = ("DENIED", Reason.notCovered) ∧
    reasonText Reason.notCovered = "Claim type not covered under policy" := by
  refine ⟨?_, rfl⟩
  unfold make_decision
  simp [h]

/-- Witness for C1 at a concrete not-covered input. -/
theorem make_decision_denied_when_not_covered_witness :
    make_decision ⟨false, "Not Covered", (0 : ℚ), false⟩ [] none ⟨[], [], [], true⟩
        {} 1000 50000 = ("DENIED", Reason.notCovered) :=
  (make_decision_denied_when_not_covered ⟨false, "Not Covered", (0 : ℚ), false⟩ []
    none ⟨[], [], [], true⟩ {} 1000 50000 rfl).1

/-! ## C4 -/

/-- C4: for every payout calculation with non-negative claimed amount and
deductible and with the effective co-pay and depreciation percentages in
[0, 100], the payable amount satisfies
`0 ≤ payable_amount ≤ claimed_amount`, in every branch. -/
theorem payout_within_bounds (claim_amount : ℚ) (policy_data : PolicyData)
    (repair_costs : DepTable) (vehicle_age_years : ℚ) (claim_type : String)
    (hc : 0 ≤ claim_amount)
    (hd : 0 ≤ policy_data.deductible.getD 2000)
    (hp₀ : 0 ≤ policy_data.copay_percentage.getD 10)
    (hp₁ : policy_data.copay_percentage.getD 10 ≤ 100)
    (hr₀ : 0 ≤ depreciationRateFor repair_costs claim_type vehicle_age_years)
    (hr₁ : depreciationRateFor repair_costs claim_type vehicle_age_years ≤ 100) :
    0 ≤ (calculate_payout claim_amount policy_data repair_costs vehicle_age_years
          claim_type).payable_amount ∧
    (calculate_payout claim_amount policy_data repair_costs vehicle_age_years
          claim_type).payable_amount ≤ claim_amount := by
  have h100 : (0 : ℚ) ≤ 100 := by norm_num
  unfold calculate_payout
  by_cases h1 : strStartsWith claim_type "health_" = true
  · -- health co-pay branch
    rw [if_pos h1]
    dsimp only
    refine ⟨le_max_left _ _, max_le hc ?_⟩
    have hcp : 0 ≤ claim_amount * (policy_data.copay_percentage.getD 10 / 100) :=
      mul_nonneg hc (div_nonneg hp₀ h100)
    linarith
  · rw [if_neg h1]
    dsimp only
    refine ⟨le_max_left _ _, max_le hc ?_⟩
    have hdep : 0 ≤ claim_amount *
        (depreciationRateFor repair_costs claim_type vehicle_age_years / 100) :=
      mul_nonneg hc (div_nonneg hr₀ h100)
    cases hz : policy_data.zero_depreciation <;> simp [hz] <;> linarith

/-- Witness for C4 at a concrete zero-depreciation motor claim. -/
theorem payout_within_bounds_witness :
    0 ≤ (calculate_payout 45000 { zero_depreciation := true, deductible := some 2000 }
          {} 1 "motor_accident").payable_amount ∧
    (calculate_payout 45000 { zero_depreciation := true, deductible := some 2000 }
          {} 1 "motor_accident").payable_amount ≤ 45000 :=
  payout_within_bounds 45000 { zero_depreciation := true, deductible := some 2000 }
    {} 1 "motor_accident" (by decide) (by decide) (by decide) (by decide)
    (by with_unfolding_all decide) (by with_unfolding_all decide)

/-! ## C5 -/

/-- C5: for every health claim the payout calculator returns
`copay_amount = claim_amount × (copay_percentage / 100)` (default 10% when
unset) and `payable_amount = max 0 (claim_amount − copay_amount −
deductible)`, with the floor at zero applied once to the final amount; in
particular with claimed amount 100000, co-pay 10% and deductible 2000 it
returns `copay_amount = 10000` and `payable_amount = 88000`. -/
theorem health_copay_formula (claim_amount : ℚ) (policy_data : PolicyData)
    (repair_costs : DepTable) (vehicle_age_years : ℚ) (claim_type : String)
    (hh : strStartsWith claim_type "health_" = true) :
    ((calculate_payout claim_amount policy_data repair_costs vehicle_age_years
          claim_type).copay_amount
        = some (claim_amount * (policy_data.copay_percentage.getD 10 / 100)) ∧
     (calculate_payout claim_amount policy_data repair_costs vehicle_age_years
          claim_type).payable_amount
        = max 0 (claim_amount - claim_amount * (policy_data.copay_percentage.getD 10 / 100)
            - policy_data.deductible.getD 2000)) ∧
    ((calculate_payout 100000 { copay_percentage := some 10, deductible := some 2000 }
          repair_costs vehicle_age_years claim_type).copay_amount = some 10000 ∧
     (calculate_payout 100000 { copay_percentage := some 10, deductible := some 2000 }
          repair_costs vehicle_age_years claim_type).payable_amount = 88000) := by
  unfold calculate_payout
  rw [if_pos hh, if_pos hh]
  refine ⟨⟨rfl, rfl⟩, ?_, ?_⟩ <;> dsimp only <;> norm_num

/-- Witness for C5 at a concrete health claim. -/
theorem health_copay_formula_witness :
    (calculate_payout 100000 { copay_percentage := some 10, deductible := some 2000 }
        {} 1 "health_surgery").copay_amount = some 10000 ∧
    (calculate_payout 100000 { copay_percentage := some 10, deductible := some 2000 }
        {} 1 "health_surgery").payable_amount = 88000 :=
  (health_copay_formula 0 {} {} 1 "health_surgery" (by decide)).2

/-! ## C6 -/

/-- C6 counterexample: in the fallback rules of `check_coverage` in
src/agent/tools.py, a motor claim against a policy whose coverage type is
neither "comprehensive" nor "third_party" is NOT covered (section "Unknown
Coverage"), contradicting the claimed comprehensive-equivalent treatment. -/
theorem motor_unknown_coverage_counterexample :
    (check_coverage_fallback "motor_accident"
        { coverage_type := some "own_damage_only" }).covered = false ∧
    (check_coverage_fallback "motor_accident"
        { coverage_type := some "own_damage_only" }).sectionLabel = "Unknown Coverage" := by
  decide

/-- C6 (amended): for every motor claim whose policy coverage type is
neither "comprehensive" nor "third_party", the agentic fallback rules
(src/agent/tools_agent.py) treat it as comprehensive-equivalent
(covered, Own Damage section), while the fixed-pipeline fallback rules
(src/agent/tools.py) return not covered with section "Unknown Coverage". -/
theorem motor_unknown_coverage_amended (claim_type : String) (policy_data : PolicyData)
    (hmotor : strStartsWith claim_type "motor_" = true)
    (h1 : policy_data.coverage_type.getD "" ≠ "comprehensive")
    (h2 : policy_data.coverage_type.getD "" ≠ "third_party") :
    ((check_coverage_fallback_agent claim_type policy_data).covered = true ∧
     (check_coverage_fallback_agent claim_type policy_data).sectionLabel
        = "Section 2.1: Own Damage") ∧
    ((check_coverage_fallback claim_type policy_data).covered = false ∧
     (check_coverage_fallback claim_type policy_data).sectionLabel
        = "Unknown Coverage") := by
  have hh : strStartsWith claim_type "health_" = false := motor_prefix_not_health hmotor
  unfold check_coverage_fallback_agent check_coverage_fallback
  simp [hh, hmotor, h1, h2]

/-- Witness for the amended C6 at a concrete unknown coverage type. -/
theorem motor_unknown_coverage_amended_witness :
    ((check_coverage_fallback_agent "motor_theft"
        { coverage_type := some "standalone_od" }).covered = true ∧
     (check_coverage_fallback_agent "motor_theft"
        { coverage_type := some "standalone_od" }).sectionLabel
        = "Section 2.1: Own Damage") ∧
    ((check_coverage_fallback "motor_theft"
        { coverage_type := some "standalone_od" }).covered = false ∧
     (check_coverage_fallback "motor_theft"
        { coverage_type := some "standalone_od" }).sectionLabel
        = "Unknown Coverage") :=
  motor_unknown_coverage_amended "motor_theft" { coverage_type := some "standalone_od" }
    (by decide) (by decide) (by decide)

/-! ## C7 -/

/-- C7: the hard-coded fallback policy dicts returned by `retrieve_policy`
on a repository miss (both copies) carry no provenance field of any kind —
no "source", "provenance", or authoritativeness marker — so the fallback is
not explicitly distinguishable from a genuine repository hit, contrary to
the claim (compare `check_claim_history`, whose results do carry a
"source" provenance field). -/
theorem fallback_policy_without_provenance_tag :
    ("source" ∉ fallbackPolicyKeys ∧ "provenance" ∉ fallbackPolicyKeys ∧
     "authoritative" ∉ fallbackPolicyKeys ∧ "non_authoritative" ∉ fallbackPolicyKeys) ∧
    ("source" ∉ fallbackPolicyKeysAgent ∧ "provenance" ∉ fallbackPolicyKeysAgent ∧
     "authoritative" ∉ fallbackPolicyKeysAgent ∧
     "non_authoritative" ∉ fallbackPolicyKeysAgent) := by
  decide

/-! ## C8 -/

/-- C8: for every pair of inputs, `check_exclusions` returns exactly the 7
catalogue entries in fixed order, each with `applies = false` and the
generic reason. -/
theorem check_exclusions_fixed_catalogue (claim_data : StructuredClaim)
    (policy_data : PolicyData) :
    check_exclusions claim_data policy_data =
      [⟨"DUI (Driving Under Influence)", false,
          "No indication of this exclusion in claim details"⟩,
       ⟨"Invalid or Expired License", false,
          "No indication of this exclusion in claim details"⟩,
       ⟨"Commercial Use without Commercial Policy", false,
          "No indication of this exclusion in claim details"⟩,
       ⟨"War or Nuclear Risk", false,
          "No indication of this exclusion in claim details"⟩,
       ⟨"Consequential Losses", false,
          "No indication of this exclusion in claim details"⟩,
       ⟨"Wear and Tear", false,
          "No indication of this exclusion in claim details"⟩,
       ⟨"Mechanical/Electrical Breakdown", false,
          "No indication of this exclusion in claim details"⟩] := rfl

/-! ## C9 -/

/-- C9: the extraction tool's classification is idempotent on the 13
canonical claim types: feeding a canonical type as the free-text claim
type yields the same canonical `claim_type` unchanged. -/
theorem normalizer_idempotent_on_canonical_types :
    (extract_claim_data_from_conversation { claim_type := some "motor_accident" }).claim_type
      = "motor_accident" ∧
    (extract_claim_data_from_conversation { claim_type := some "motor_theft" }).claim_type
      = "motor_theft" ∧
    (extract_claim_data_from_conversation { claim_type := some "motor_fire" }).claim_type
      = "motor_fire" ∧
    (extract_claim_data_from_conversation { claim_type := some "motor_vandalism" }).claim_type
      = "motor_vandalism" ∧
    (extract_claim_data_from_conversation { claim_type := some "home_fire" }).claim_type
      = "home_fire" ∧
    (extract_claim_data_from_conversation { claim_type := some "home_theft" }).claim_type
      = "home_theft" ∧
    (extract_claim_data_from_conversation { claim_type := some "home_flood" }).claim_type
      = "home_flood" ∧
    (extract_claim_data_from_conversation { claim_type := some "home_earthquake" }).claim_type
      = "home_earthquake" ∧
    (extract_claim_data_from_conversation { claim_type := some "home_storm" }).claim_type
      = "home_storm" ∧
    (extract_claim_data_from_conversation { claim_type := some "health_accident" }).claim_type
      = "health_accident" ∧
    (extract_claim_data_from_conversation { claim_type := some "health_hospitalization" }).claim_type
      = "health_hospitalization" ∧
    (extract_claim_data_from_conversation { claim_type := some "health_surgery" }).claim_type
      = "health_surgery" ∧
    (extract_claim_data_from_conversation { claim_type := some "health_critical_illness" }).claim_type
      = "health_critical_illness" := by
  decide

/-! ## C10 -/

/-- With a zero claim amount and a non-negative configured limit, no branch
of `make_decision` can return the exceeds-auto-approval-limit reasoning. -/
theorem make_decision_zero_never_exceeds (max_auto_approve : ℚ)
    (hm : 0 ≤ max_auto_approve) (coverage_check : CoverageResult)
    (exclusions : List ExclusionEntry) (payout_calculation : Option PayoutResult)
    (document_status : DocumentStatus) (claim_history : ClaimHistory) (m : ℚ) :
    (make_decision coverage_check exclusions payout_calculation document_status
        claim_history 0 max_auto_approve).2 ≠ Reason.exceedsLimit m := by
  unfold make_decision
  split_ifs with h1 h2 h3 h4 h5 h6 h7 <;> simp
  linarith

/-- C10: in the fixed deterministic pipeline (src/agent/workflow.py), the
claim amount handed to the decision engine is always the extracted
`repair_estimate` (default 0).  For every health claim the extracted record
carries `treatment_cost` but no `repair_estimate`, so the decision engine
compares amount 0 and its "amount exceeds auto-approval limit" REVIEW
branch is unreachable however large the treatment cost is, while the payout
step of the same pipeline uses the treatment cost. -/
theorem pipeline_health_decision_amount_zero (raw : RawClaim) (max_auto_approve : ℚ)
    (hh : strStartsWith (normalizeClaimType (raw.claim_type.getD "unknown"))
        "health_" = true)
    (hm : 0 ≤ max_auto_approve) :
    step8_claim_amount (extract_claim_data_from_conversation raw) = 0 ∧
    (extract_claim_data_from_conversation raw).repair_estimate = none ∧
    (extract_claim_data_from_conversation raw).treatment_cost
      = some (truthyAmount raw.treatment_cost) ∧
    step5_claim_amount (extract_claim_data_from_conversation raw)
      = truthyAmount raw.treatment_cost ∧
    ∀ (coverage_check : CoverageResult) (exclusions : List ExclusionEntry)
      (payout_calculation : Option PayoutResult) (document_status : DocumentStatus)
      (claim_history : ClaimHistory) (m : ℚ),
      (make_decision coverage_check exclusions payout_calculation document_status
          claim_history
          (step8_claim_amount (extract_claim_data_from_conversation raw))
          max_auto_approve).2 ≠ Reason.exceedsLimit m := by
  have hmot : strStartsWith (normalizeClaimType (raw.claim_type.getD "unknown"))
      "motor" = false := health_prefix_not_motor hh
  have hhom : strStartsWith (normalizeClaimType (raw.claim_type.getD "unknown"))
      "home" = false := health_prefix_not_home hh
  have hhea : strStartsWith (normalizeClaimType (raw.claim_type.getD "unknown"))
      "health" = true := health_prefix_is_health hh
  have hex : extract_claim_data_from_conversation raw =
      { claim_type := normalizeClaimType (raw.claim_type.getD "unknown")
        incident_date := raw.incident_date.getD ""
        customer_id := raw.customer_id.getD ""
        location := raw.location.getD ""
        submitted_documents := raw.submitted_documents
        treatment_type := some (raw.treatment_type.getD "")
        hospital_name := some (raw.hospital_name.getD "")
        hospitalization_date := some (raw.hospitalization_date.getD "")
        treatment_cost := some (truthyAmount raw.treatment_cost)
        medical_bills := some (raw.medical_bills.getD "") } := by
    unfold extract_claim_data_from_conversation
    simp [hmot, hhom, hhea]
  have h8 : step8_claim_amount (extract_claim_data_from_conversation raw) = 0 := by
    rw [hex]; rfl
  refine ⟨h8, by rw [hex], by rw [hex], ?_, ?_⟩
  · unfold step5_claim_amount
    rw [hex]
    simp [hh]
  · intro cov excl payout docs hist m
    rw [h8]
    exact make_decision_zero_never_exceeds max_auto_approve hm cov excl payout docs hist m

/-- Witness for C10 at a concrete health claim with a large treatment
cost. -/
theorem pipeline_health_decision_amount_zero_witness :
    step8_claim_amount (extract_claim_data_from_conversation
        { claim_type := some "health surgery", treatment_cost := some 250000 }) = 0 ∧
    step5_claim_amount (extract_claim_data_from_conversation
        { claim_type := some "health surgery", treatment_cost := some 250000 }) = 250000 ∧
    (make_decision ⟨true, "Section 3: Surgical Procedures", (500000 : ℚ), true⟩ [] none
        ⟨[], [], [], true⟩ {}
        (step8_claim_amount (extract_claim_data_from_conversation
          { claim_type := some "health surgery", treatment_cost := some 250000 }))
        50000).2 ≠ Reason.exceedsLimit 50000 :=
  ⟨(pipeline_health_decision_amount_zero
      { claim_type := some "health surgery", treatment_cost := some 250000 } 50000
      (by decide) (by decide)).1,
   ((pipeline_health_decision_amount_zero
      { claim_type := some "health surgery", treatment_cost := some 250000 } 50000
      (by decide) (by decide)).2.2.2.1).trans rfl,
   (pipeline_health_decision_amount_zero
      { claim_type := some "health surgery", treatment_cost := some 250000 } 50000
      (by decide) (by decide)).2.2.2.2
      ⟨true, "Section 3: Surgical Procedures", (500000 : ℚ), true⟩ [] none
      ⟨[], [], [], true⟩ {} 50000⟩

/-! ## Orchestrator bookkeeping lemmas -/

theorem execEffect_tool_call_count (cfg : OrchConfig) (s : OrchState) (call : ToolCall) :
    (execEffect cfg s call).tool_call_count = s.tool_call_count := by
  cases call <;> simp only [execEffect] <;> (try split) <;> rfl

theorem execEffect_max_tool_calls (cfg : OrchConfig) (s : OrchState) (call : ToolCall) :
    (execEffect cfg s call).max_tool_calls = s.max_tool_calls := by
  cases call <;> simp only [execEffect] <;> (try split) <;> rfl

theorem execToolCall_tool_call_count (cfg : OrchConfig) (s : OrchState) (call : ToolCall) :
    (execToolCall cfg s call).tool_call_count = s.tool_call_count + 1 := by
  simp [execToolCall, execEffect_tool_call_count]

theorem execToolCall_max_tool_calls (cfg : OrchConfig) (s : OrchState) (call : ToolCall) :
    (execToolCall cfg s call).max_tool_calls = s.max_tool_calls := by
  simp [execToolCall, execEffect_max_tool_calls]

theorem foldl_exec_tool_call_count (cfg : OrchConfig) :
    ∀ (l : List ToolCall) (s : OrchState),
      (l.foldl (execToolCall cfg) s).tool_call_count = s.tool_call_count + l.length
  | [], s => by simp
  | c :: t, s => by
      simp only [List.foldl_cons, List.length_cons,
        foldl_exec_tool_call_count cfg t, execToolCall_tool_call_count]
      omega

theorem foldl_exec_max_tool_calls (cfg : OrchConfig) :
    ∀ (l : List ToolCall) (s : OrchState),
      (l.foldl (execToolCall cfg) s).max_tool_calls = s.max_tool_calls
  | [], _ => rfl
  | c :: t, s => by
      simp only [List.foldl_cons, foldl_exec_max_tool_calls cfg t,
        execToolCall_max_tool_calls]

theorem tool_executor_tool_call_count (cfg : OrchConfig) (s : OrchState) :
    (tool_executor_node cfg s).tool_call_count = s.tool_call_count + s.pending.length := by
  unfold tool_executor_node
  split
  · next h => simp [List.isEmpty_iff.mp h]
  · exact foldl_exec_tool_call_count cfg s.pending s

theorem tool_executor_max_tool_calls (cfg : OrchConfig) (s : OrchState) :
    (tool_executor_node cfg s).max_tool_calls = s.max_tool_calls := by
  unfold tool_executor_node
  split
  · rfl
  · exact foldl_exec_max_tool_calls cfg s.pending s

theorem finalize_node_phase (cfg : OrchConfig) (s : OrchState) :
    (finalize_node cfg s).phase = .finalized := by
  unfold finalize_node
  split <;> rfl

theorem finalize_node_tool_call_count (cfg : OrchConfig) (s : OrchState) :
    (finalize_node cfg s).tool_call_count = s.tool_call_count := by
  unfold finalize_node
  split <;> rfl

theorem finalize_node_max_tool_calls (cfg : OrchConfig) (s : OrchState) :
    (finalize_node cfg s).max_tool_calls = s.max_tool_calls := by
  unfold finalize_node
  split <;> rfl

/-! ## Orchestrator invariants and measure -/

/-- Structural well-formedness of a reachable orchestrator state: the
budget is the fixed 20 of `transition_node`, and a tools turn only happens
with budget remaining and a non-empty batch. -/
def OrchWF (s : OrchState) : Prop :=
  s.max_tool_calls = 20 ∧
  (s.phase = .toolsTurn → s.tool_call_count < 20 ∧ s.pending ≠ [])

/-- Termination measure for the agent ⇄ tools loop. -/
def orchMeasure (s : OrchState) : ℕ :=
  match s.phase with
  | .finalized => 0
  | .agentTurn => 2 * (20 - min s.tool_call_count 20) + 2
  | .toolsTurn => 2 * (20 - min s.tool_call_count 20) + 1

theorem step_of_finalized (cfg : OrchConfig) (r : AgentResp) (s : OrchState)
    (h : s.phase = .finalized) : step cfg r s = s := by
  unfold step
  rw [h]

theorem step_of_agentTurn (cfg : OrchConfig) (r : AgentResp) (s : OrchState)
    (h : s.phase = .agentTurn) :
    step cfg r s =
      if should_continue (agent_node r s) = true
      then { agent_node r s with phase := .toolsTurn }
      else finalize_node cfg (agent_node r s) := by
  unfold step
  rw [h]

theorem step_of_toolsTurn (cfg : OrchConfig) (r : AgentResp) (s : OrchState)
    (h : s.phase = .toolsTurn) :
    step cfg r s = { tool_executor_node cfg s with phase := .agentTurn } := by
  unfold step
  rw [h]

theorem agent_node_of_limit (r : AgentResp) (s : OrchState)
    (hmax : s.max_tool_calls = 20) (hc : 20 ≤ s.tool_call_count) :
    agent_node r s = { s with pending := [] } := by
  unfold agent_node
  rw [hmax, if_pos hc]

theorem agent_node_of_error (m : String) (s : OrchState)
    (hmax : s.max_tool_calls = 20) (hc : ¬ 20 ≤ s.tool_call_count) :
    agent_node (.llmError m) s = { s with pending := [] } := by
  unfold agent_node
  rw [hmax, if_neg hc]

theorem agent_node_of_message (calls : List ToolCall) (s : OrchState)
    (hmax : s.max_tool_calls = 20) (hc : ¬ 20 ≤ s.tool_call_count) :
    agent_node (.message calls) s = { s with pending := calls } := by
  unfold agent_node
  rw [hmax, if_neg hc]

/-- Stepping a well-formed, non-terminal state keeps it well-formed and
strictly decreases the measure. -/
theorem step_wf_decrease (cfg : OrchConfig) (r : AgentResp) (s : OrchState)
    (hwf : OrchWF s) :
    OrchWF (step cfg r s) ∧
      (s.phase ≠ .finalized → orchMeasure (step cfg r s) < orchMeasure s) := by
  obtain ⟨hmax, htools⟩ := hwf
  cases hp : s.phase with
  | finalized =>
      rw [step_of_finalized cfg r s hp]
      exact ⟨⟨hmax, htools⟩, fun h => absurd rfl h⟩
  | agentTurn =>
      have hmeas : orchMeasure s = 2 * (20 - min s.tool_call_count 20) + 2 := by
        unfold orchMeasure
        rw [hp]
      have hfin : ∀ (s' : OrchState), s'.max_tool_calls = 20 →
          OrchWF (finalize_node cfg s') ∧
            orchMeasure (finalize_node cfg s') < orchMeasure s := by
        intro s' hm
        refine ⟨⟨by rw [finalize_node_max_tool_calls, hm], ?_⟩, ?_⟩
        · intro h
          rw [finalize_node_phase] at h
          exact absurd h (by simp)
        · have h1 : orchMeasure (finalize_node cfg s') = 0 := by
            unfold orchMeasure
            rw [finalize_node_phase]
          omega
      rw [step_of_agentTurn cfg r s hp]
      by_cases hc : 20 ≤ s.tool_call_count
      · rw [agent_node_of_limit r s hmax hc]
        rw [show should_continue ({ s with pending := [] } : OrchState) = false from rfl]
        rw [if_neg (by simp)]
        exact ⟨(hfin { s with pending := [] } hmax).1, fun _ => (hfin { s with pending := [] } hmax).2⟩
      · cases r with
        | llmError m =>
            rw [agent_node_of_error m s hmax hc]
            rw [show should_continue ({ s with pending := [] } : OrchState) = false from rfl]
            rw [if_neg (by simp)]
            exact ⟨(hfin { s with pending := [] } hmax).1, fun _ => (hfin { s with pending := [] } hmax).2⟩
        | message calls =>
            rw [agent_node_of_message calls s hmax hc]
            cases hcalls : calls.isEmpty with
            | true =>
                rw [show should_continue ({ s with pending := calls } : OrchState)
                    = !calls.isEmpty from rfl, hcalls]
                rw [if_neg (by simp)]
                exact ⟨(hfin { s with pending := calls } hmax).1, fun _ => (hfin { s with pending := calls } hmax).2⟩
            | false =>
                rw [show should_continue ({ s with pending := calls } : OrchState)
                    = !calls.isEmpty from rfl, hcalls]
                rw [if_pos (show (!false) = true from rfl)]
                refine ⟨⟨hmax, fun _ => ⟨?_, ?_⟩⟩, fun _ => ?_⟩
                · show s.tool_call_count < 20
                  omega
                · show calls ≠ []
                  intro hnil
                  rw [hnil] at hcalls
                  simp at hcalls
                · have h3 : orchMeasure ({ { s with pending := calls } with
                      phase := .toolsTurn } : OrchState)
                      = 2 * (20 - min s.tool_call_count 20) + 1 := rfl
                  omega
  | toolsTurn =>
      obtain ⟨hcnt, hpend⟩ := htools hp
      have hlen : 1 ≤ s.pending.length := List.length_pos.mpr hpend
      rw [step_of_toolsTurn cfg r s hp]
      refine ⟨⟨?_, ?_⟩, ?_⟩
      · show (tool_executor_node cfg s).max_tool_calls = 20
        rw [tool_executor_max_tool_calls, hmax]
      · intro h
        exact absurd h (by simp)
      · intro _
        have h2 : orchMeasure s = 2 * (20 - min s.tool_call_count 20) + 1 := by
          unfold orchMeasure
          rw [hp]
        have h3 : orchMeasure ({ tool_executor_node cfg s with phase := .agentTurn } :
            OrchState) = 2 * (20 - min ((tool_executor_node cfg s).tool_call_count) 20) + 2 :=
          rfl
        rw [h3, tool_executor_tool_call_count, h2]
        omega

theorem run_succ_front (cfg : OrchConfig) (o : ℕ → AgentResp) :
    ∀ (n : ℕ) (s : OrchState),
      run cfg o s (n + 1) = run cfg (fun k => o (k + 1)) (step cfg (o 0) s) n
  | 0, s => rfl
  | n + 1, s => by
      rw [show run cfg o s (n + 1 + 1) = step cfg (o (n + 1)) (run cfg o s (n + 1)) from rfl,
        run_succ_front cfg o n s]
      rfl

theorem run_of_finalized (cfg : OrchConfig) (o : ℕ → AgentResp) (s : OrchState)
    (h : s.phase = .finalized) : ∀ n, run cfg o s n = s
  | 0 => rfl
  | n + 1 => by
      rw [show run cfg o s (n + 1) = step cfg (o n) (run cfg o s n) from rfl,
        run_of_finalized cfg o s h n, step_of_finalized cfg (o n) s h]

/-- From any well-formed state, the loop is finalized after `orchMeasure`
many transitions, whatever the LLM does. -/
theorem run_reaches_finalized :
    ∀ (n : ℕ) (cfg : OrchConfig) (o : ℕ → AgentResp) (s : OrchState),
      OrchWF s → orchMeasure s ≤ n → (run cfg o s n).phase = .finalized := by
  intro n
  induction n with
  | zero =>
      intro cfg o s hwf hm
      cases hp : s.phase with
      | finalized => exact hp
      | agentTurn =>
          exfalso
          have hm2 : orchMeasure s = 2 * (20 - min s.tool_call_count 20) + 2 := by
            unfold orchMeasure
            rw [hp]
          omega
      | toolsTurn =>
          exfalso
          have hm2 : orchMeasure s = 2 * (20 - min s.tool_call_count 20) + 1 := by
            unfold orchMeasure
            rw [hp]
          omega
  | succ n ih =>
      intro cfg o s hwf hm
      by_cases hp : s.phase = .finalized
      · rw [run_of_finalized cfg o s hp]
        exact hp
      · rw [run_succ_front]
        have hd := step_wf_decrease cfg (o 0) s hwf
        exact ih cfg _ _ hd.1 (by have := hd.2 hp; omega)

/-- Count invariant: the counter stays below the budget plus one batch,
provided every LLM message carries at most `B` tool calls. -/
def OrchCountInv (B : ℕ) (s : OrchState) : Prop :=
  OrchWF s ∧ s.tool_call_count ≤ 19 + B ∧
    (s.phase = .toolsTurn → s.pending.length ≤ B)

theorem step_count_inv (cfg : OrchConfig) (r : AgentResp) (B : ℕ) (s : OrchState)
    (hInv : OrchCountInv B s) (hr : r.numCalls ≤ B) :
    OrchCountInv B (step cfg r s) := by
  obtain ⟨⟨hmax, htools⟩, hcnt, hpend⟩ := hInv
  cases hp : s.phase with
  | finalized =>
      rw [step_of_finalized cfg r s hp]
      exact ⟨⟨hmax, htools⟩, hcnt, hpend⟩
  | agentTurn =>
      have hfin : ∀ (s' : OrchState), s'.max_tool_calls = 20 →
          s'.tool_call_count = s.tool_call_count → OrchCountInv B (finalize_node cfg s') := by
        intro s' hm hc
        refine ⟨⟨by rw [finalize_node_max_tool_calls, hm], ?_⟩, ?_, ?_⟩
        · intro h
          rw [finalize_node_phase] at h
          exact absurd h (by simp)
        · rw [finalize_node_tool_call_count, hc]
          exact hcnt
        · intro h
          rw [finalize_node_phase] at h
          exact absurd h (by simp)
      rw [step_of_agentTurn cfg r s hp]
      by_cases hc : 20 ≤ s.tool_call_count
      · rw [agent_node_of_limit r s hmax hc]
        rw [show should_continue ({ s with pending := [] } : OrchState) = false from rfl]
        rw [if_neg (by simp)]
        exact hfin { s with pending := [] } hmax rfl
      · cases r with
        | llmError m =>
            rw [agent_node_of_error m s hmax hc]
            rw [show should_continue ({ s with pending := [] } : OrchState) = false from rfl]
            rw [if_neg (by simp)]
            exact hfin { s with pending := [] } hmax rfl
        | message calls =>
            rw [agent_node_of_message calls s hmax hc]
            cases hcalls : calls.isEmpty with
            | true =>
                rw [show should_continue ({ s with pending := calls } : OrchState)
                    = !calls.isEmpty from rfl, hcalls]
                rw [if_neg (by simp)]
                exact hfin { s with pending := calls } hmax rfl
            | false =>
                rw [show should_continue ({ s with pending := calls } : OrchState)
                    = !calls.isEmpty from rfl, hcalls]
                rw [if_pos (show (!false) = true from rfl)]
                refine ⟨⟨hmax, fun _ => ⟨?_, ?_⟩⟩, hcnt, fun _ => ?_⟩
                · show s.tool_call_count < 20
                  omega
                · show calls ≠ []
                  intro hnil
                  rw [hnil] at hcalls
                  simp at hcalls
                · show calls.length ≤ B
                  simpa [AgentResp.numCalls] using hr
  | toolsTurn =>
      obtain ⟨hcl, hpnd⟩ := htools hp
      have hlen : s.pending.length ≤ B := hpend hp
      rw [step_of_toolsTurn cfg r s hp]
      refine ⟨⟨?_, ?_⟩, ?_, ?_⟩
      · show (tool_executor_node cfg s).max_tool_calls = 20
        rw [tool_executor_max_tool_calls, hmax]
      · intro h
        exact absurd h (by simp)
      · show (tool_executor_node cfg s).tool_call_count ≤ 19 + B
        rw [tool_executor_tool_call_count]
        omega
      · intro h
        exact absurd h (by simp)

theorem run_count_inv (cfg : OrchConfig) (o : ℕ → AgentResp) (B : ℕ) (s : OrchState)
    (h0 : OrchCountInv B s) (hB : ∀ k, (o k).numCalls ≤ B) :
    ∀ n, OrchCountInv B (run cfg o s n)
  | 0 => h0
  | n + 1 => step_count_inv cfg (o n) B _ (run_count_inv cfg o B s h0 hB n) (hB n)

/-! ## C2 -/

/-- The LLM oracle used in the C2 counterexample: every agent turn requests
a batch of three history lookups. -/
def c2Oracle : ℕ → AgentResp := fun _ =>
  .message [.checkClaimHistory {} false, .checkClaimHistory {} false,
    .checkClaimHistory {} false]

/-- C2 counterexample: with batches of three tool calls per agent message,
the orchestrator reaches `tool_call_count = 21` against
`max_tool_calls = 20` — the agent node checks the budget only before a
batch, and the executor counts every call of the batch — so the claimed
bound `tool_call_count ≤ max_tool_calls` fails on a reachable state. -/
theorem orchestrator_budget_overrun_counterexample :
    (run {} c2Oracle (initialOrchState "CLM-C2" {}) 14).max_tool_calls <
      (run {} c2Oracle (initialOrchState "CLM-C2" {}) 14).tool_call_count ∧
    (run {} c2Oracle (initialOrchState "CLM-C2" {}) 14).tool_call_count = 21 ∧
    (run {} c2Oracle (initialOrchState "CLM-C2" {}) 14).max_tool_calls = 20 := by
  decide

/-- C2 (amended): the orchestrator always reaches the terminal FINALIZE
state within 42 transitions of the agent ⇄ tools loop — whatever the LLM
answers and even when component invocations fail — and when every agent
message carries at most `B` tool calls the invocation counter never exceeds
`max_tool_calls − 1 + B` (in particular it never exceeds `max_tool_calls`
when the agent issues one call at a time); a new batch is only started
while the counter is below `max_tool_calls = 20`. -/
theorem orchestrator_termination_and_bound (cfg : OrchConfig) (o : ℕ → AgentResp)
    (claim_id : String) (raw : RawClaim) (B : ℕ)
    (hB : ∀ k, (o k).numCalls ≤ B) :
    (run cfg o (initialOrchState claim_id raw) 42).phase = .finalized ∧
    ∀ n, (run cfg o (initialOrchState claim_id raw) n).tool_call_count ≤ 19 + B := by
  have hwf : OrchWF (initialOrchState claim_id raw) :=
    ⟨rfl, fun h => absurd h (by simp [initialOrchState])⟩
  constructor
  · refine run_reaches_finalized 42 cfg o _ hwf ?_
    have : orchMeasure (initialOrchState claim_id raw) = 42 := rfl
    omega
  · intro n
    refine (run_count_inv cfg o B _ ⟨hwf, ?_, ?_⟩ hB n).2.1
    · show (0 : ℕ) ≤ 19 + B
      omega
    · intro h
      exact absurd h (by simp [initialOrchState])

/-- Witness oracle for the amended C2: one tool call per message. -/
def c2WitnessOracle : ℕ → AgentResp := fun _ =>
  .message [.checkClaimHistory {} true]

/-- Witness for the amended C2 at a concrete single-call oracle
(`B = 1`, and the calls even fail): termination and the bound instance. -/
theorem orchestrator_termination_and_bound_witness :
    (run {} c2WitnessOracle (initialOrchState "CLM-W2" {}) 42).phase = .finalized ∧
    (run {} c2WitnessOracle (initialOrchState "CLM-W2" {}) 9).tool_call_count ≤ 19 + 1 :=
  ⟨(orchestrator_termination_and_bound {} c2WitnessOracle "CLM-W2" {} 1
      (fun _ => Nat.le_refl 1)).1,
   (orchestrator_termination_and_bound {} c2WitnessOracle "CLM-W2" {} 1
      (fun _ => Nat.le_refl 1)).2 9⟩

/-! ## C3 -/

/-- The LLM oracle of the C3 counterexample: one coverage check on an
unrecognized claim type, then a plain message with no tool calls. -/
def c3Oracle : ℕ → AgentResp := fun n =>
  if n = 0 then .message [.checkCoverage "gadget_damage" {} none false]
  else .message []

/-- C3 counterexample: a run that reaches FINALIZE with no decision
produced (the decision slot still holds the initial `""`) but with a
not-covered coverage result in state ends with decision DENIED and the
coverage section as reasoning — not the claimed REVIEW with an
incomplete-processing reasoning. -/
theorem finalize_without_decision_counterexample :
    (run {} c3Oracle (initialOrchState "CLM-C3" {}) 2).decision = "" ∧
    (run {} c3Oracle (initialOrchState "CLM-C3" {}) 3).phase = .finalized ∧
    (run {} c3Oracle (initialOrchState "CLM-C3" {}) 3).decision = "DENIED" ∧
    (run {} c3Oracle (initialOrchState "CLM-C3" {}) 3).decision ≠ "REVIEW" ∧
    (run {} c3Oracle (initialOrchState "CLM-C3" {}) 3).decision_reasoning
      = "Unknown Coverage" := by
  refine ⟨rfl, rfl, rfl, ?_, rfl⟩
  decide

/-- The function `generate_report` never returns the empty string: its output begins
with the fixed report header. -/
theorem generate_report_ne_empty (claim_id : String) (claim_data : ClaimDataView)
    (coverage_check : Option CoverageResult) (exclusions : List ExclusionEntry)
    (payout_calculation : Option PayoutResult) (document_status : Option DocumentStatus)
    (claim_history : Option ClaimHistory) (decision decision_reasoning : String)
    (processing_time : ℚ) (processing_date : String) :
    generate_report claim_id claim_data coverage_check exclusions payout_calculation
      document_status claim_history decision decision_reasoning processing_time
      processing_date ≠ "" := by
  unfold generate_report
  intro h
  have hlen := congrArg String.length h
  simp only [String.length_append] at hlen
  have hpos : 0 < ("\n===== CLAIM PROCESSING REPORT =====\nClaim ID: " : String).length := by
    decide
  have hempty : ("" : String).length = 0 := rfl
  omega

/-- C3 (amended): when the orchestrator reaches FINALIZE with no report and
no decision produced, the finalize step always returns a non-empty report;
it defaults the decision to REVIEW ("Coverage status unknown" when no
coverage result exists, the incomplete-processing reasoning when a covered
coverage result exists), but when a not-covered coverage result is present
it instead sets DENIED with the coverage section as reasoning. -/
theorem finalize_defaults_amended (cfg : OrchConfig) (s : OrchState)
    (hrep : s.final_report = "") (hdec : s.decision = "") :
    (finalize_node cfg s).final_report ≠ "" ∧
    (s.coverage_check = none →
      (finalize_node cfg s).decision = "REVIEW" ∧
      (finalize_node cfg s).decision_reasoning = "Coverage status unknown") ∧
    (∀ cov, s.coverage_check = some cov → cov.covered = true →
      (finalize_node cfg s).decision = "REVIEW" ∧
      (finalize_node cfg s).decision_reasoning =
        "Claim requires manual review - automated processing incomplete") ∧
    (∀ cov, s.coverage_check = some cov → cov.covered = false →
      (finalize_node cfg s).decision = "DENIED" ∧
      (finalize_node cfg s).decision_reasoning = cov.sectionLabel) := by
  unfold finalize_node
  rw [if_pos hrep, if_pos hdec]
  refine ⟨?_, ?_, ?_, ?_⟩
  · cases hcov : s.coverage_check with
    | none => simp only [hcov]; exact generate_report_ne_empty _ _ _ _ _ _ _ _ _ _ _
    | some cov =>
        cases hcv : cov.covered <;> simp only [hcov, hcv] <;>
          exact generate_report_ne_empty _ _ _ _ _ _ _ _ _ _ _
  · intro hcov
    simp [hcov]
  · intro cov hcov hcv
    simp [hcov, hcv]
  · intro cov hcov hcv
    simp [hcov, hcv]

/-- Witness for the amended C3 at the post-transition initial state (no
coverage result, no decision): finalize yields REVIEW and a non-empty
report. -/
theorem finalize_defaults_amended_witness :
    (finalize_node {} (initialOrchState "CLM-W3" {})).final_report ≠ "" ∧
    (finalize_node {} (initialOrchState "CLM-W3" {})).decision = "REVIEW" ∧
    (finalize_node {} (initialOrchState "CLM-W3" {})).decision_reasoning
      = "Coverage status unknown" :=
  ⟨(finalize_defaults_amended {} (initialOrchState "CLM-W3" {}) rfl rfl).1,
   ((finalize_defaults_amended {} (initialOrchState "CLM-W3" {}) rfl rfl).2.1 rfl).1,
   ((finalize_defaults_amended {} (initialOrchState "CLM-W3" {}) rfl rfl).2.1 rfl).2⟩

end ClaimFlow
